import Mathlib

/-!
# Verification of the mcp_kokoro speak pipeline

Shallow embedding of `src/mcp_kokoro/__init__.py`: the cache key derivation
(`_get_cache_path`), the chunk adapter / clipping normalization, the
producer/consumer streaming playback coordinator, and the `_speak_sync` /
`speak` control flow, modelled as pure functions over explicit state.

Audio samples are rationals (the Python code works on float arrays; the
claims under study are exact algebraic facts about the scaling arithmetic,
which ℚ captures).  The SHA-256 hexdigest is kept abstract as a parameter
`h : String → String`: every claim about key derivation factors through the
pre-hash string `content_id`.
-/

namespace McpKokoro

/-- One audio chunk: a finite sequence of float samples (modelled as ℚ). -/
abbrev Chunk := List ℚ

/-- A Python exception value (identified by its message). -/
structure Exn where
  msg : String
deriving DecidableEq, Repr

/-- One item yielded by the Kokoro engine generator.  The code's
compatibility layer (lines 117–127) distinguishes a `KPipeline.Result`
object carrying `output.audio`, a legacy 3-tuple `(graphemes, phonemes,
audio)`, and anything else (neither shape). -/
inductive EngineResult where
  | resultObj (audio : Chunk)
  | legacy (graphemes phonemes : String) (audio : Chunk)
  | other
deriving DecidableEq, Repr

/-- The adapter's shape dispatch: `audio = result.output.audio` for a
result object, third component for a 3-tuple, `None` otherwise
(lines 119–127 of `_speak_sync`). -/
def extractAudio : EngineResult → Option Chunk
  | .resultObj a => some a
  | .legacy _ _ a => some a
  | .other => none

/-- `np.max(np.abs(audio))` on a chunk (0 on the empty chunk; the code only
evaluates it behind a `len(audio) > 0` guard). -/
def maxAbs (audio : Chunk) : ℚ :=
  audio.foldr (fun s m => max |s| m) 0

/-- Clipping correction, lines 134–138: only for a non-empty chunk, compute
`max_val`; if it exceeds 1.0 rescale every sample by `/ max_val * 0.99`. -/
def clipNormalize (audio : Chunk) : Chunk :=
  if 0 < audio.length then
    let max_val := maxAbs audio
    if 1 < max_val then audio.map (fun s => s / max_val * (99 / 100)) else audio
  else audio

/-- Full per-result processing of the producer loop body: extract the audio
if either shape matches, then apply clipping correction.  Returns `none`
exactly when `audio` stays `None` in the Python code, in which case the
body's `if audio is not None` block — the queue push and the accumulation
append — is skipped. -/
def processResult (r : EngineResult) : Option Chunk :=
  (extractAudio r).map clipNormalize

/-- The engine generator together with an injected fault: `faultAt = some
(k, e)` means the generator raises `e` after yielding the first `k`
results; `none` means it runs to completion. -/
structure FaultySeq where
  chunks : List EngineResult
  faultAt : Option (Nat × Exn)
deriving DecidableEq, Repr

/-- The results actually yielded before the generator finishes or raises. -/
def genYielded (g : FaultySeq) : List EngineResult :=
  match g.faultAt with
  | none => g.chunks
  | some (k, _) => g.chunks.take k

/-- The exception the generator raises, if any. -/
def genFault (g : FaultySeq) : Option Exn :=
  g.faultAt.map (fun p => p.2)

/-- The chunks the producer loop pushes onto the handoff queue; each is
also appended to `full_audio_pieces`, so this list is simultaneously the
queue content (before the end marker) and the accumulation list. -/
def producerPushed (g : FaultySeq) : List Chunk :=
  (genYielded g).filterMap processResult

/-- Whether the end-of-stream marker `q.put(None)` (line 145) runs: it sits
after the `for` loop, NOT in a `finally`, so a generator exception skips
it. -/
def markerPushed (g : FaultySeq) : Bool :=
  (genFault g).isNone

/-- The device: playing one buffer (`sd.play` + `sd.wait`) either succeeds
or raises.  `saveOk` is whether `np.save` succeeds; `loadFail k` is whether
the cache-hit `try` block (np.load / sd.play on the cached buffer) raises
for key `k`. -/
structure Env where
  play : Chunk → Option Exn
  saveOk : Bool
  loadFail : String → Bool

/-- First playback error among the queued chunks, in FIFO order: the value
`playback_error` holds when the consumer exits. -/
def firstPlayError (play : Chunk → Option Exn) : List Chunk → Option Exn
  | [] => none
  | c :: rest =>
    match play c with
    | some e => some e
    | none => firstPlayError play rest

/-- The buffers the consumer hands to the device, in order: it pops chunks
in FIFO order and stops after the first chunk whose playback raises
(the erroring chunk counts as handed to the device). -/
def playedChunks (play : Chunk → Option Exn) : List Chunk → List Chunk
  | [] => []
  | c :: rest =>
    if (play c).isSome then [c] else c :: playedChunks play rest

/-- Whether the consumer thread ever exits its `while True` loop: it breaks
on the end marker, and its `try` wrapper exits on a playback exception;
with no marker and no failing chunk, `q.get()` blocks forever. -/
def consumerTerminates (play : Chunk → Option Exn) (g : FaultySeq) : Bool :=
  markerPushed g || (producerPushed g).any (fun c => (play c).isSome)

/-! ## Cache key derivation (`_get_cache_path`, lines 51–55) -/

/-- `content_id = f"{text}|{voice}|{speed}"`.  `speed` is the string
rendering of the Python float. -/
def content_id (text voice speed : String) : String :=
  text ++ "|" ++ voice ++ "|" ++ speed

/-- The cache path stem: the hexdigest of the UTF-8 encoded `content_id`.
`h` abstracts `hashlib.sha256(·).hexdigest()`; everything proved about key
derivation holds for an arbitrary digest function, and collisions below
are produced already at the pre-hash string, which forces equal digests. -/
def cacheKey (h : String → String) (text voice speed : String) : String :=
  h (content_id text voice speed)

/-! ## The disk cache and `_speak_sync` (lines 57–164) -/

/-- The durable cache: newest-first association list from cache key to the
stored concatenated buffer (`np.save` overwrites, so consing the new entry
in front with first-match lookup models a rewrite). -/
abbrev Cache := List (String × Chunk)

/-- `cache_path.exists()` + `np.load`: the stored buffer for a key. -/
def cacheLookup (c : Cache) (k : String) : Option Chunk :=
  match c with
  | [] => none
  | (k', v) :: rest => if k' = k then some v else cacheLookup rest k

/-- Everything observable about one `_speak_sync` call. -/
structure Outcome where
  /-- the function's return value: `none` on success, `some e` when it
  returns a caught exception -/
  result : Option Exn
  /-- the cache after the call -/
  cache : Cache
  /-- the buffers handed to `sd.play`, in order -/
  played : List Chunk
  /-- whether `pipeline(...)` was invoked -/
  engineInvoked : Bool
  /-- whether the end-of-stream marker reached the queue -/
  markerSent : Bool
  /-- whether the consumer thread terminates -/
  consumerDone : Bool
deriving DecidableEq, Repr

/-- The generation path of `_speak_sync` (lines 77–162): run the producer
loop over the engine generator, let the consumer drain the queue, then
save to the disk cache.  Key control-flow facts embedded from the source:
* a generator exception propagates out of the `for` loop straight to the
  `except` on line 163, skipping `q.put(None)`, `t.join()` and the save;
* otherwise `t.join()` returns, and a recorded `playback_error` is
  re-raised (line 151) before the save block runs;
* the save runs only when `full_audio_pieces` is non-empty, and a save
  exception is swallowed (lines 154–160). -/
def generate (h : String → String) (text voice speed : String)
    (g : FaultySeq) (env : Env) (cache : Cache) : Outcome :=
  let key := cacheKey h text voice speed
  let pushed := producerPushed g
  match genFault g with
  | some e =>
      { result := some e, cache := cache,
        played := playedChunks env.play pushed, engineInvoked := true,
        markerSent := false,
        consumerDone := pushed.any (fun c => (env.play c).isSome) }
  | none =>
      match firstPlayError env.play pushed with
      | some e =>
          { result := some e, cache := cache,
            played := playedChunks env.play pushed, engineInvoked := true,
            markerSent := true, consumerDone := true }
      | none =>
          if pushed.isEmpty then
            { result := none, cache := cache, played := pushed,
              engineInvoked := true, markerSent := true, consumerDone := true }
          else if env.saveOk then
            { result := none, cache := (key, pushed.flatten) :: cache,
              played := pushed, engineInvoked := true, markerSent := true,
              consumerDone := true }
          else
            { result := none, cache := cache, played := pushed,
              engineInvoked := true, markerSent := true, consumerDone := true }

/-- `_speak_sync` (lines 57–164): check the disk cache first; on a hit,
load and play the stored buffer inside a `try` whose failure falls through
to regeneration (lines 66–76); on a miss, generate. -/
def speakSync (h : String → String) (text voice speed : String)
    (g : FaultySeq) (env : Env) (cache : Cache) : Outcome :=
  let key := cacheKey h text voice speed
  match cacheLookup cache key with
  | some buf =>
      if env.loadFail key then
        generate h text voice speed g env cache
      else
        { result := none, cache := cache, played := [buf],
          engineInvoked := false, markerSent := false, consumerDone := true }
  | none => generate h text voice speed g env cache

/-! ## The `speak` tool (lines 166–191) -/

/-- `text.replace('\n', ' ')` (line 184): each newline character becomes a
space (stated on the character list, which is what the Python single-char
replace does). -/
def clean_text (t : String) : String :=
  String.mk (t.data.map (fun c => if c = '\n' then ' ' else c))

/-- `not text or not text.strip()` (line 176): the text is empty or
whitespace-only. -/
def blankText (t : String) : Bool :=
  t.data.all Char.isWhitespace

/-- The key `_speak_sync` derives for a `speak` call: `speak` replaces
newlines with spaces before handing the text over. -/
def speakKey (h : String → String) (text voice speed : String) : String :=
  cacheKey h (clean_text text) voice speed

/-- The `speak` tool body: blank text short-circuits to success without
touching the engine; otherwise the cleaned text goes through
`_speak_sync` and the returned exception, if any, becomes an error
string. -/
def speak (h : String → String) (text voice speed : String)
    (g : FaultySeq) (env : Env) (cache : Cache) : String × Outcome :=
  if blankText text then
    ("Speech completed successfully.",
     { result := none, cache := cache, played := [], engineInvoked := false,
       markerSent := false, consumerDone := true })
  else
    let o := speakSync h (clean_text text) voice speed g env cache
    (match o.result with
     | some e => "Error speaking text: " ++ e.msg
     | none => "Speech completed successfully.", o)

/-! ## Helper lemmas -/

theorem maxAbs_cons (s : ℚ) (c : Chunk) :
    maxAbs (s :: c) = max |s| (maxAbs c) := rfl

theorem maxAbs_nonneg (c : Chunk) : 0 ≤ maxAbs c := by
  induction c with
  | nil => exact le_refl 0
  | cons s rest ih =>
      rw [maxAbs_cons]
      exact le_trans ih (le_max_right _ _)

theorem maxAbs_map_mul (k : ℚ) (hk : 0 ≤ k) (c : Chunk) :
    maxAbs (c.map (fun s => s * k)) = maxAbs c * k := by
  induction c with
  | nil => simp [maxAbs]
  | cons s rest ih =>
      simp only [List.map_cons, maxAbs_cons, ih, abs_mul, abs_of_nonneg hk,
        max_mul_of_nonneg _ _ hk]

theorem clipNormalize_of_clipping (c : Chunk) (hne : c ≠ []) (hm : 1 < maxAbs c) :
    clipNormalize c = c.map (fun s => s * (99 / 100 / maxAbs c)) := by
  have hlen : 0 < c.length := List.length_pos.mpr hne
  have hpt : ∀ s : ℚ, s / maxAbs c * (99 / 100) = s * (99 / 100 / maxAbs c) :=
    fun s => by ring
  simp only [clipNormalize, if_pos hlen, if_pos hm, hpt]

theorem append_sep_inj {sep : Char} {a c b d : List Char}
    (ha : sep ∉ a) (hc : sep ∉ c)
    (h : a ++ sep :: b = c ++ sep :: d) : a = c ∧ b = d := by
  induction a generalizing c with
  | nil =>
    cases c with
    | nil => simpa using h
    | cons x c' =>
      simp only [List.nil_append, List.cons_append, List.cons.injEq] at h
      exact absurd (show sep ∈ x :: c' by rw [h.1]; exact List.mem_cons_self x c') hc
  | cons x a' ih =>
    cases c with
    | nil =>
      simp only [List.cons_append, List.nil_append, List.cons.injEq] at h
      exact absurd (show sep ∈ x :: a' by rw [← h.1]; exact List.mem_cons_self x a') ha
    | cons y c' =>
      simp only [List.cons_append, List.cons.injEq] at h
      have ha' : sep ∉ a' := fun hm => ha (List.mem_cons_of_mem _ hm)
      have hc' : sep ∉ c' := fun hm => hc (List.mem_cons_of_mem _ hm)
      obtain ⟨h1, h2⟩ := ih ha' hc' h.2
      exact ⟨by rw [h.1, h1], h2⟩

theorem content_id_data (t v s : String) :
    (content_id t v s).data = t.data ++ '|' :: (v.data ++ '|' :: s.data) := by
  simp [content_id, String.data_append]

/-! ## C4: cache key derivation -/

/-- **C4 counterexample.** Two distinct (text, voice, speed) triples whose
delimiter-joined serializations coincide exactly — the text form `a|b` with
voice `c` versus the text `a` with voice `b|c` — hence whose cache keys
coincide for any digest function (exhibited with the identity digest): the
serialization is NOT unambiguous, contrary to the claim. -/
theorem cacheKey_collision :
    (("a|b", "c", "1.0") : String × String × String) ≠ ("a", "b|c", "1.0") ∧
    content_id "a|b" "c" "1.0" = content_id "a" "b|c" "1.0" ∧
    cacheKey id "a|b" "c" "1.0" = cacheKey id "a" "b|c" "1.0" := by
  decide

/-- **C4 (amended).** The cache key is the digest of the delimiter-joined
string `text|voice|speed`, so equal triples always produce equal keys; the
serialization is unambiguous on triples whose text and voice contain no
bar character: for such triples, equal pre-hash strings force equal
components.  (When text or voice may contain the bar, distinct triples can
serialize — and hence hash — identically.) -/
theorem cacheKey_deterministic_unambiguous (h : String → String)
    (t1 v1 s1 t2 v2 s2 : String)
    (ht1 : '|' ∉ t1.data) (hv1 : '|' ∉ v1.data)
    (ht2 : '|' ∉ t2.data) (hv2 : '|' ∉ v2.data) :
    cacheKey h t1 v1 s1 = h (content_id t1 v1 s1) ∧
    (content_id t1 v1 s1 = content_id t2 v2 s2 →
      t1 = t2 ∧ v1 = v2 ∧ s1 = s2) := by
  refine ⟨rfl, fun heq => ?_⟩
  have hd : t1.data ++ '|' :: (v1.data ++ '|' :: s1.data)
      = t2.data ++ '|' :: (v2.data ++ '|' :: s2.data) := by
    rw [← content_id_data, ← content_id_data, heq]
  obtain ⟨h1, h2⟩ := append_sep_inj ht1 ht2 hd
  obtain ⟨h3, h4⟩ := append_sep_inj hv1 hv2 h2
  exact ⟨String.ext h1, String.ext h3, String.ext h4⟩

theorem cacheKey_deterministic_unambiguous_witness :
    cacheKey id "a" "b" "1.0" = id (content_id "a" "b" "1.0") ∧
    ("a" : String) = "a" ∧ ("b" : String) = "b" ∧ ("1.0" : String) = "1.0" := by
  have h := cacheKey_deterministic_unambiguous id "a" "b" "1.0" "a" "b" "1.0"
    (by decide) (by decide) (by decide) (by decide)
  exact ⟨h.1, h.2 rfl⟩

/-! ## C5: the text used for key derivation -/

/-- **C5 counterexample.** Two `speak` texts that differ as strings — one
with a newline, one with a space — receive the same cache key, because
`speak` replaces newlines with spaces before key derivation: the key is
NOT derived from the text exactly as given by the caller. -/
theorem speakKey_newline_collision :
    ("a\nb" : String) ≠ "a b" ∧
    speakKey id "a\nb" "v" "1.0" = speakKey id "a b" "v" "1.0" := by
  decide

/-- **C5 (amended).** The cache keys used by a `speak` call are derived
from the newline-collapsed text (each newline replaced by a space), not
from the text exactly as given; texts that differ only in newline-vs-space
therefore share a key.  For a text containing no newline character there is
no normalization at all: its key is derived from the text exactly as
given. -/
theorem speakKey_uses_cleaned_text (h : String → String) (t v s : String)
    (hn : '\n' ∉ t.data) :
    (∀ t' : String, speakKey h t' v s = cacheKey h (clean_text t') v s) ∧
    speakKey h t v s = cacheKey h t v s := by
  refine ⟨fun t' => rfl, ?_⟩
  have hmap : t.data.map (fun c => if c = '\n' then ' ' else c) = t.data := by
    have h1 : t.data.map (fun c => if c = '\n' then ' ' else c) = t.data.map id :=
      List.map_congr_left (fun c hc => by
        have hcne : c ≠ '\n' := fun he => hn (he ▸ hc)
        simp [hcne])
    rw [h1, List.map_id]
  show cacheKey h (clean_text t) v s = cacheKey h t v s
  unfold clean_text
  rw [hmap]

theorem speakKey_uses_cleaned_text_witness :
    speakKey id "ab" "v" "1.0" = cacheKey id "ab" "v" "1.0" :=
  (speakKey_uses_cleaned_text id "ab" "v" "1.0" (by decide)).2

/-! ## C6: clipping correction -/

/-- **C6.** For every non-empty chunk whose maximum absolute sample value
exceeds 1.0, every sample is rescaled by the factor 0.99 / max_abs, and
after normalization the maximum absolute sample value is exactly 0.99
(hence at most 0.99 + ε); a non-empty chunk whose maximum absolute sample
value is at most 1.0 is left unchanged. -/
theorem clipping_correction (c : Chunk) (hne : c ≠ []) :
    (1 < maxAbs c →
      clipNormalize c = c.map (fun s => s * (99 / 100 / maxAbs c)) ∧
      maxAbs (clipNormalize c) = 99 / 100) ∧
    (maxAbs c ≤ 1 → clipNormalize c = c) := by
  constructor
  · intro hm
    have hpos : (0 : ℚ) < maxAbs c := lt_trans zero_lt_one hm
    have hk : (0 : ℚ) ≤ 99 / 100 / maxAbs c :=
      div_nonneg (by norm_num) (le_of_lt hpos)
    have hrw := clipNormalize_of_clipping c hne hm
    refine ⟨hrw, ?_⟩
    rw [hrw, maxAbs_map_mul _ hk, mul_comm, div_mul_cancel₀]
    exact ne_of_gt hpos
  · intro hm
    have hlen : 0 < c.length := List.length_pos.mpr hne
    unfold clipNormalize
    rw [if_pos hlen]
    exact if_neg (not_lt.mpr hm)

theorem clipping_correction_witness :
    maxAbs (clipNormalize [(2 : ℚ), 1]) = 99 / 100 ∧
    clipNormalize [(1 : ℚ)] = [(1 : ℚ)] :=
  ⟨((clipping_correction [(2 : ℚ), 1] (by decide)).1 (by decide)).2,
   (clipping_correction [(1 : ℚ)] (by decide)).2 (by decide)⟩

/-! ## Step lemmas for the speak control flow -/

theorem cacheLookup_cons_self (k : String) (v : Chunk) (c : Cache) :
    cacheLookup ((k, v) :: c) k = some v := by
  simp [cacheLookup]

theorem speakSync_miss (h : String → String) (t v s : String) (g : FaultySeq)
    (env : Env) (cache : Cache)
    (hmiss : cacheLookup cache (cacheKey h t v s) = none) :
    speakSync h t v s g env cache = generate h t v s g env cache := by
  simp only [speakSync, hmiss]

theorem speakSync_hit (h : String → String) (t v s : String) (g : FaultySeq)
    (env : Env) (cache : Cache) (buf : Chunk)
    (hhit : cacheLookup cache (cacheKey h t v s) = some buf)
    (hload : env.loadFail (cacheKey h t v s) = false) :
    speakSync h t v s g env cache =
      { result := none, cache := cache, played := [buf],
        engineInvoked := false, markerSent := false, consumerDone := true } := by
  simp only [speakSync, hhit, hload, Bool.false_eq_true, if_false]

theorem speakSync_hit_loadFail (h : String → String) (t v s : String)
    (g : FaultySeq) (env : Env) (cache : Cache) (buf : Chunk)
    (hhit : cacheLookup cache (cacheKey h t v s) = some buf)
    (hload : env.loadFail (cacheKey h t v s) = true) :
    speakSync h t v s g env cache = generate h t v s g env cache := by
  simp only [speakSync, hhit, hload, if_true]

theorem generate_fault (h : String → String) (t v s : String) (g : FaultySeq)
    (env : Env) (cache : Cache) (e : Exn) (hf : genFault g = some e) :
    generate h t v s g env cache =
      { result := some e, cache := cache,
        played := playedChunks env.play (producerPushed g),
        engineInvoked := true, markerSent := false,
        consumerDone := (producerPushed g).any (fun c => (env.play c).isSome) } := by
  simp only [generate, hf]

theorem generate_playError (h : String → String) (t v s : String)
    (g : FaultySeq) (env : Env) (cache : Cache) (e : Exn)
    (hf : genFault g = none)
    (he : firstPlayError env.play (producerPushed g) = some e) :
    generate h t v s g env cache =
      { result := some e, cache := cache,
        played := playedChunks env.play (producerPushed g),
        engineInvoked := true, markerSent := true, consumerDone := true } := by
  simp only [generate, hf, he]

theorem generate_success_save (h : String → String) (t v s : String)
    (g : FaultySeq) (env : Env) (cache : Cache)
    (hf : genFault g = none)
    (he : firstPlayError env.play (producerPushed g) = none)
    (hne : producerPushed g ≠ [])
    (hs : env.saveOk = true) :
    generate h t v s g env cache =
      { result := none,
        cache := (cacheKey h t v s, (producerPushed g).flatten) :: cache,
        played := producerPushed g, engineInvoked := true,
        markerSent := true, consumerDone := true } := by
  have hie : (producerPushed g).isEmpty = false := by
    cases hp : producerPushed g with
    | nil => exact absurd hp hne
    | cons a l => rfl
  simp only [generate, hf, he, hie, hs, Bool.false_eq_true, if_false, if_true]

theorem generate_success_nostore (h : String → String) (t v s : String)
    (g : FaultySeq) (env : Env) (cache : Cache)
    (hf : genFault g = none)
    (he : firstPlayError env.play (producerPushed g) = none)
    (hns : producerPushed g = [] ∨ env.saveOk = false) :
    generate h t v s g env cache =
      { result := none, cache := cache, played := producerPushed g,
        engineInvoked := true, markerSent := true, consumerDone := true } := by
  simp only [generate, hf, he]
  rcases hns with hp | hs
  · have hie : (producerPushed g).isEmpty = true := by rw [hp]; rfl
    simp [hie]
  · cases hie : (producerPushed g).isEmpty
    · simp [hie, hs]
    · simp [hie, hs]

theorem generate_congr (h : String → String) (t v s : String)
    (g g' : FaultySeq) (env : Env) (cache : Cache)
    (h1 : genFault g = genFault g')
    (h2 : producerPushed g = producerPushed g') :
    generate h t v s g env cache = generate h t v s g' env cache := by
  unfold generate
  rw [h1, h2]

theorem speakSync_congr (h : String → String) (t v s : String)
    (g g' : FaultySeq) (env : Env) (cache : Cache)
    (h1 : genFault g = genFault g')
    (h2 : producerPushed g = producerPushed g') :
    speakSync h t v s g env cache = speakSync h t v s g' env cache := by
  unfold speakSync
  rw [generate_congr h t v s g g' env cache h1 h2]

theorem speakSync_cache_invariant (h : String → String) (t v s : String)
    (g : FaultySeq) (env : Env) (c : Cache) :
    (speakSync h t v s g env c).cache = c ∨
    (speakSync h t v s g env c).result = none := by
  have hgen : (generate h t v s g env c).cache = c ∨
      (generate h t v s g env c).result = none := by
    rcases hf : genFault g with _ | e
    · rcases he : firstPlayError env.play (producerPushed g) with _ | e2
      · cases hs : env.saveOk with
        | false =>
            rw [generate_success_nostore h t v s g env c hf he (Or.inr hs)]
            exact Or.inl rfl
        | true =>
            by_cases hp : producerPushed g = []
            · rw [generate_success_nostore h t v s g env c hf he (Or.inl hp)]
              exact Or.inl rfl
            · rw [generate_success_save h t v s g env c hf he hp hs]
              exact Or.inr rfl
      · rw [generate_playError h t v s g env c e2 hf he]
        exact Or.inl rfl
    · rw [generate_fault h t v s g env c e hf]
      exact Or.inl rfl
  rcases hl : cacheLookup c (cacheKey h t v s) with _ | buf
  · rw [speakSync_miss h t v s g env c hl]
    exact hgen
  · cases hload : env.loadFail (cacheKey h t v s) with
    | false =>
        rw [speakSync_hit h t v s g env c buf hl hload]
        exact Or.inl rfl
    | true =>
        rw [speakSync_hit_loadFail h t v s g env c buf hl hload]
        exact hgen

theorem flatten_filter_not_isEmpty (l : List Chunk) :
    l.flatten = (l.filter (fun c => !c.isEmpty)).flatten := by
  induction l with
  | nil => rfl
  | cons c rest ih =>
    cases c with
    | nil => simpa using ih
    | cons x xs => simp [List.filter_cons, ih]

/-! ## C1: the drain guarantee -/

/-- **C1.** At the failing input — a 5-chunk engine sequence whose
generator raises after yielding 2 chunks, with a device that never errors —
the coordinator never pushes the end-of-stream marker (the exception jumps
from the `for` loop to the outer handler, skipping the put of the marker
and the join) and the consumer never exits its loop: it stays blocked on
the queue for the life of the process.  Only the two pre-fault chunks are
handed to the device, and the generator's exception is returned.  The
claimed drain guarantee (marker still pushed, consumer waited on and
terminating) does not hold on this code. -/
theorem drain_guarantee_violated :
    (generate id "t" "v" "1.0"
        ⟨[.resultObj [1], .resultObj [0], .resultObj [1], .resultObj [0],
          .resultObj [1]], some (2, ⟨"boom"⟩)⟩
        ⟨fun _ => none, true, fun _ => false⟩ []).markerSent = false ∧
    (generate id "t" "v" "1.0"
        ⟨[.resultObj [1], .resultObj [0], .resultObj [1], .resultObj [0],
          .resultObj [1]], some (2, ⟨"boom"⟩)⟩
        ⟨fun _ => none, true, fun _ => false⟩ []).consumerDone = false ∧
    (generate id "t" "v" "1.0"
        ⟨[.resultObj [1], .resultObj [0], .resultObj [1], .resultObj [0],
          .resultObj [1]], some (2, ⟨"boom"⟩)⟩
        ⟨fun _ => none, true, fun _ => false⟩ []).played = [[1], [0]] ∧
    (generate id "t" "v" "1.0"
        ⟨[.resultObj [1], .resultObj [0], .resultObj [1], .resultObj [0],
          .resultObj [1]], some (2, ⟨"boom"⟩)⟩
        ⟨fun _ => none, true, fun _ => false⟩ []).result = some ⟨"boom"⟩ := by
  decide

/-! ## C2: empty chunks -/

/-- **C2 counterexample.** A zero-length chunk yielded by the engine is
NOT skipped: the producer pushes it onto the playback queue and appends it
to the accumulation list (only the clipping normalization is guarded by
the length check), and it is handed to the device. -/
theorem empty_chunk_pushed :
    processResult (.resultObj []) = some [] ∧
    producerPushed ⟨[.resultObj []], none⟩ = [[]] ∧
    (generate id "t" "v" "1.0" ⟨[.resultObj []], none⟩
        ⟨fun _ => none, true, fun _ => false⟩ []).played = [[]] := by
  decide

/-- **C2 (amended).** A zero-length chunk is exempted only from clipping
normalization (it passes through the adapter unchanged); it is pushed onto
the playback queue and appended to the accumulation list like any other
extracted chunk.  Because it is empty, it contributes no samples to the
concatenated audio stored in the cache: the concatenation of the
accumulated chunks equals the concatenation of the non-empty ones
alone. -/
theorem empty_chunks_queued_but_inert (g : FaultySeq)
    (pre post : List EngineResult) :
    clipNormalize [] = [] ∧
    producerPushed ⟨pre ++ .resultObj [] :: post, none⟩
      = producerPushed ⟨pre, none⟩ ++ [] :: producerPushed ⟨post, none⟩ ∧
    (producerPushed g).flatten
      = ((producerPushed g).filter (fun c => !c.isEmpty)).flatten := by
  refine ⟨rfl, ?_, flatten_filter_not_isEmpty (producerPushed g)⟩
  simp [producerPushed, genYielded, List.filterMap_append, List.filterMap_cons,
    processResult, extractAudio, clipNormalize]

/-! ## C3: malformed engine results -/

/-- **C3 counterexample.** An engine result matching neither recognized
shape does not fail the utterance: with a malformed first result followed
by a well-formed chunk, the synchronous speak body returns success — no
Malformed Result condition, no abort — and continues past the malformed
result, playing the later chunk. -/
theorem malformed_result_not_failure :
    (speakSync id "t" "v" "1.0" ⟨[.other, .resultObj [1]], none⟩
        ⟨fun _ => none, true, fun _ => false⟩ []).result = none ∧
    (speakSync id "t" "v" "1.0" ⟨[.other, .resultObj [1]], none⟩
        ⟨fun _ => none, true, fun _ => false⟩ []).played = [[1]] := by
  decide

/-- **C3 (amended).** A result that is neither a structured result object
exposing an audio value nor a 3-sequence yields no audio (`audio` stays
`None`) and is skipped silently: the synchronous speak body behaves
exactly as if the malformed result were absent from the (fault-free)
engine sequence — the operation does not fail and continues with the
remaining chunks. -/
theorem malformed_results_skipped (h : String → String) (t v s : String)
    (pre post : List EngineResult) (env : Env) (cache : Cache) :
    extractAudio .other = none ∧
    speakSync h t v s ⟨pre ++ .other :: post, none⟩ env cache
      = speakSync h t v s ⟨pre ++ post, none⟩ env cache := by
  refine ⟨rfl, ?_⟩
  apply speakSync_congr
  · rfl
  · simp [producerPushed, genYielded, List.filterMap_append, processResult,
      extractAudio]

/-! ## C7: playback failure discards the accumulation -/

/-- **C7.** If the consumer records a playback error for some chunk of a
(fault-free) generation run, that error is re-raised after the join and
becomes the return value of the synchronous speak body, and the save step
never runs: the cache is exactly as before the call, so no partial entry
is stored.  On a cache miss the whole call reduces to this generation
path. -/
theorem playback_error_discards_cache (h : String → String) (t v s : String)
    (g : FaultySeq) (env : Env) (cache : Cache) (e : Exn)
    (hf : genFault g = none)
    (he : firstPlayError env.play (producerPushed g) = some e) :
    (generate h t v s g env cache).result = some e ∧
    (generate h t v s g env cache).cache = cache ∧
    (cacheLookup cache (cacheKey h t v s) = none →
      speakSync h t v s g env cache = generate h t v s g env cache) := by
  rw [generate_playError h t v s g env cache e hf he]
  exact ⟨rfl, rfl, fun hm => by
    rw [speakSync_miss h t v s g env cache hm,
      generate_playError h t v s g env cache e hf he]⟩

theorem playback_error_discards_cache_witness :
    (generate id "t" "v" "1.0" ⟨[.resultObj [1]], none⟩
        ⟨fun _ => some ⟨"dev"⟩, true, fun _ => false⟩ []).result = some ⟨"dev"⟩ ∧
    (generate id "t" "v" "1.0" ⟨[.resultObj [1]], none⟩
        ⟨fun _ => some ⟨"dev"⟩, true, fun _ => false⟩ []).cache = [] :=
  have h := playback_error_discards_cache id "t" "v" "1.0"
    ⟨[.resultObj [1]], none⟩ ⟨fun _ => some ⟨"dev"⟩, true, fun _ => false⟩ []
    ⟨"dev"⟩ (by decide) (by decide)
  ⟨h.1, h.2.1⟩

theorem speak_nonblank (h : String → String) (T V S : String) (g : FaultySeq)
    (env : Env) (c : Cache) (hT : blankText T = false) :
    speak h T V S g env c =
      (match (speakSync h (clean_text T) V S g env c).result with
       | some e => "Error speaking text: " ++ e.msg
       | none => "Speech completed successfully.",
       speakSync h (clean_text T) V S g env c) := by
  simp only [speak, hT, Bool.false_eq_true, if_false]

/-! ## C8: idempotence through the cache -/

/-- **C8.** For a fixed non-blank triple, if a first `speak` run generates
successfully (fault-free engine sequence, at least one extracted chunk, no
playback error) and its store succeeds, then a second `speak` of the same
triple against the resulting cache is a hit: it reports success on the
first call, does not invoke the engine on the second, and the single
buffer the second call plays is exactly the concatenation of the chunks
the first call played. -/
theorem speak_idempotent (h : String → String) (T V S : String)
    (g g2 : FaultySeq) (env env2 : Env) (c0 : Cache)
    (hT : blankText T = false)
    (hmiss : cacheLookup c0 (speakKey h T V S) = none)
    (hf : genFault g = none)
    (hplay : firstPlayError env.play (producerPushed g) = none)
    (hne : producerPushed g ≠ [])
    (hsave : env.saveOk = true)
    (hload2 : env2.loadFail (speakKey h T V S) = false) :
    (speak h T V S g env c0).1 = "Speech completed successfully." ∧
    (speak h T V S g2 env2 (speak h T V S g env c0).2.cache).2.engineInvoked
      = false ∧
    (speak h T V S g2 env2 (speak h T V S g env c0).2.cache).2.played
      = [(speak h T V S g env c0).2.played.flatten] := by
  have ho1 : speakSync h (clean_text T) V S g env c0
      = { result := none,
          cache := (cacheKey h (clean_text T) V S, (producerPushed g).flatten)
            :: c0,
          played := producerPushed g, engineInvoked := true,
          markerSent := true, consumerDone := true } := by
    rw [speakSync_miss h (clean_text T) V S g env c0 hmiss,
      generate_success_save h (clean_text T) V S g env c0 hf hplay hne hsave]
  have hs1 := speak_nonblank h T V S g env c0 hT
  rw [ho1] at hs1
  have ho2 : speakSync h (clean_text T) V S g2 env2
      ((cacheKey h (clean_text T) V S, (producerPushed g).flatten) :: c0)
      = { result := none,
          cache := (cacheKey h (clean_text T) V S, (producerPushed g).flatten)
            :: c0,
          played := [(producerPushed g).flatten],
          engineInvoked := false, markerSent := false, consumerDone := true } :=
    speakSync_hit h (clean_text T) V S g2 env2 _ _
      (cacheLookup_cons_self _ _ _) hload2
  have hs2 := speak_nonblank h T V S g2 env2
    ((cacheKey h (clean_text T) V S, (producerPushed g).flatten) :: c0) hT
  rw [ho2] at hs2
  rw [hs1]
  exact ⟨rfl, by rw [hs2], by rw [hs2]⟩

theorem speak_idempotent_witness :
    (speak id "hi" "v" "1.0" ⟨[.resultObj [1]], none⟩
        ⟨fun _ => none, true, fun _ => false⟩ []).1
      = "Speech completed successfully." ∧
    (speak id "hi" "v" "1.0" ⟨[], none⟩ ⟨fun _ => none, true, fun _ => false⟩
        (speak id "hi" "v" "1.0" ⟨[.resultObj [1]], none⟩
          ⟨fun _ => none, true, fun _ => false⟩ []).2.cache).2.engineInvoked
      = false ∧
    (speak id "hi" "v" "1.0" ⟨[], none⟩ ⟨fun _ => none, true, fun _ => false⟩
        (speak id "hi" "v" "1.0" ⟨[.resultObj [1]], none⟩
          ⟨fun _ => none, true, fun _ => false⟩ []).2.cache).2.played
      = [(speak id "hi" "v" "1.0" ⟨[.resultObj [1]], none⟩
          ⟨fun _ => none, true, fun _ => false⟩ []).2.played.flatten] :=
  speak_idempotent id "hi" "v" "1.0" ⟨[.resultObj [1]], none⟩ ⟨[], none⟩
    ⟨fun _ => none, true, fun _ => false⟩ ⟨fun _ => none, true, fun _ => false⟩
    [] (by decide) (by decide) (by decide) (by decide) (by decide) rfl rfl

/-! ## C9: cache I/O failures are non-fatal -/

/-- **C9.** Cache I/O failures never fail the speak operation: a read
error on a present cache entry makes the call behave exactly like a miss
(the utterance is regenerated, the load error is not the outcome), and a
write failure after a successful fault-free generation leaves the success
result unchanged and the cache as before — the utterance was already
played.  In neither case does a cache error become the operation's
outcome. -/
theorem cache_io_failures_nonfatal (h : String → String) (t v s : String)
    (g : FaultySeq) (env : Env) (cache : Cache) :
    (∀ buf, cacheLookup cache (cacheKey h t v s) = some buf →
      env.loadFail (cacheKey h t v s) = true →
      speakSync h t v s g env cache = generate h t v s g env cache) ∧
    (genFault g = none →
      firstPlayError env.play (producerPushed g) = none →
      env.saveOk = false →
      (generate h t v s g env cache).result = none ∧
      (generate h t v s g env cache).cache = cache ∧
      (generate h t v s g env cache).played = producerPushed g) := by
  constructor
  · intro buf hhit hload
    exact speakSync_hit_loadFail h t v s g env cache buf hhit hload
  · intro hf he hs
    rw [generate_success_nostore h t v s g env cache hf he (Or.inr hs)]
    exact ⟨rfl, rfl, rfl⟩

theorem cache_io_failures_nonfatal_witness :
    speakSync id "t" "v" "1.0" ⟨[.resultObj [1]], none⟩
        ⟨fun _ => none, false, fun _ => true⟩ [("t|v|1.0", [0])]
      = generate id "t" "v" "1.0" ⟨[.resultObj [1]], none⟩
        ⟨fun _ => none, false, fun _ => true⟩ [("t|v|1.0", [0])] ∧
    (generate id "t" "v" "1.0" ⟨[.resultObj [1]], none⟩
        ⟨fun _ => none, false, fun _ => true⟩ [("t|v|1.0", [0])]).result
      = none ∧
    (generate id "t" "v" "1.0" ⟨[.resultObj [1]], none⟩
        ⟨fun _ => none, false, fun _ => true⟩ [("t|v|1.0", [0])]).cache
      = [("t|v|1.0", [0])] :=
  have h := cache_io_failures_nonfatal id "t" "v" "1.0"
    ⟨[.resultObj [1]], none⟩ ⟨fun _ => none, false, fun _ => true⟩
    [("t|v|1.0", [0])]
  have h2 := h.2 (by decide) (by decide) rfl
  ⟨h.1 [0] (by decide) rfl, h2.1, h2.2.1⟩

/-! ## C10: cache hits perform no write -/

/-- **C10.** On a cache hit whose load succeeds, the speak body performs
no cache write and no engine invocation: it plays exactly the stored
buffer, succeeds, and leaves every cache entry — including the hit key's
file — unchanged.  Moreover, any call that does change the cache is one
that reports success (a store happens only on the generation path after
playback completed without error). -/
theorem cache_hit_no_write (h : String → String) (t v s : String)
    (g : FaultySeq) (env : Env) (cache : Cache) (buf : Chunk)
    (hhit : cacheLookup cache (cacheKey h t v s) = some buf)
    (hload : env.loadFail (cacheKey h t v s) = false) :
    speakSync h t v s g env cache =
      { result := none, cache := cache, played := [buf],
        engineInvoked := false, markerSent := false, consumerDone := true } ∧
    (∀ (g' : FaultySeq) (env' : Env) (c' : Cache),
      (speakSync h t v s g' env' c').cache ≠ c' →
      (speakSync h t v s g' env' c').result = none) := by
  refine ⟨speakSync_hit h t v s g env cache buf hhit hload,
    fun g' env' c' hne => ?_⟩
  rcases speakSync_cache_invariant h t v s g' env' c' with hc | hr
  · exact absurd hc hne
  · exact hr

theorem cache_hit_no_write_witness :
    speakSync id "t" "v" "1.0" ⟨[], none⟩ ⟨fun _ => none, true, fun _ => false⟩
        [("t|v|1.0", [1])]
      = { result := none, cache := [("t|v|1.0", [1])], played := [[1]],
          engineInvoked := false, markerSent := false,
          consumerDone := true } :=
  (cache_hit_no_write id "t" "v" "1.0" ⟨[], none⟩
    ⟨fun _ => none, true, fun _ => false⟩ [("t|v|1.0", [1])] [1]
    (by decide) rfl).1

end McpKokoro
